import Mathlib

/-!
Shallow embedding of the client-side session/streaming manager
(frontend session store) of the enterprise-agentic-solution-starter-kit
repository, together with theorems settling the specification claims.

Conventions of the embedding:
* JavaScript `Date` values become `Nat` clock parameters passed explicitly.
* `generateId()` results become explicit `String` parameters.
* The zustand store state is the `SessionState` structure; the ambient
  world (`World`) also carries the Durable Store contents and a log of the
  transport calls made (REST chat calls and WebSocket client frames), so
  that transport effects are observable.
* The WebSocket handle is modelled as a `Channel` recording which session
  id it was created for and whether `close()` has been called on it.
* Asynchronous outcomes (REST resolve/reject, inbound frames) are passed
  as explicit parameters / separate events, matching the single-threaded
  event-loop semantics.
-/

namespace SessionStore

inductive Role where
  | user
  | assistant
deriving DecidableEq, Repr

structure ChatMessage where
  id : String
  role : Role
  content : String
  timestamp : Nat
  agent : Option String
deriving DecidableEq, Repr

structure Session where
  id : String
  name : String
  agent : String
  messages : List ChatMessage
  createdAt : Nat
  updatedAt : Nat
deriving DecidableEq, Repr

structure AgentInfo where
  name : String
  description : String
  capabilities : List String
  status : String
deriving DecidableEq, Repr

inductive ConnectionMode where
  | rest
  | websocket
deriving DecidableEq, Repr

structure Channel where
  sessionId : String
  closed : Bool
deriving DecidableEq, Repr

structure SessionState where
  sessions : List Session
  currentSession : Option Session
  agents : List AgentInfo
  selectedAgent : String
  isLoading : Bool
  isSending : Bool
  connectionMode : ConnectionMode
  wsConnection : Option Channel
deriving DecidableEq, Repr

structure ChatRequest where
  message : String
  session_id : String
  agent : String
deriving DecidableEq, Repr

structure WSMessage where
  message : String
  agent : String
deriving DecidableEq, Repr

inductive ChatResult where
  | ok (message : String) (agent : String)
  | err (detail : Option String)
deriving DecidableEq, Repr

inductive Frame where
  | chunk (content : String)
  | complete
  | error (msg : String)
deriving DecidableEq, Repr

structure World where
  db : List Session
  st : SessionState
  restCalls : List ChatRequest
  wsSent : List WSMessage
deriving DecidableEq, Repr

/-- Modelled from the spec: the Durable Store (lib/db is absent from the
sources) persists whole Session records keyed by `id`; `saveSession` is a
whole-record write with last-write-wins semantics (upsert by id). -/
def saveSessionDb : List Session → Session → List Session
  | [], s => [s]
  | t :: rest, s => if t.id = s.id then s :: rest else t :: saveSessionDb rest s

/-- Modelled from the spec: the Durable Store retrieves one whole Session
record by `id` (`getSession`), returning nothing when absent. -/
def getSessionDb : List Session → String → Option Session
  | [], _ => none
  | t :: rest, id => if t.id = id then some t else getSessionDb rest id

/-- Embeds `loadAgents`: on success it stores the fetched catalog and sets
`selectedAgent` to the first agent's name when the list is non-empty, the
empty string otherwise; on failure (fetched = none) it only logs. -/
def loadAgents (fetched : Option (List AgentInfo)) (w : World) : World :=
  match fetched with
  | some agents =>
    let selectedAgent := match agents with
      | [] => ""
      | a :: _ => a.name
    { w with st := { w.st with agents := agents, selectedAgent := selectedAgent } }
  | none => w

/-- Embeds `createSession`: builds the Session record (name derived from
the creation clock), persists it, reloads the list from the store, and
selects the new session. -/
def createSession (sid : String) (now : Nat) (agent : String) (w : World) : World :=
  let session : Session :=
    { id := sid, name := "Chat " ++ toString now, agent := agent,
      messages := [], createdAt := now, updatedAt := now }
  let db := saveSessionDb w.db session
  { w with db := db, st := { w.st with sessions := db, currentSession := some session } }

/-- Embeds `selectSession`: loads the record by id from the store; when
found it becomes current and the selected agent becomes its bound agent. -/
def selectSession (id : String) (w : World) : World :=
  match getSessionDb w.db id with
  | some session =>
    { w with st := { w.st with currentSession := some session, selectedAgent := session.agent } }
  | none => w

/-- Embeds `setSelectedAgent`: a pure state setter. -/
def setSelectedAgent (agent : String) (w : World) : World :=
  { w with st := { w.st with selectedAgent := agent } }

/-- Embeds `setConnectionMode`: a pure state setter of the mode flag. -/
def setConnectionMode (mode : ConnectionMode) (w : World) : World :=
  { w with st := { w.st with connectionMode := mode } }

/-- Embeds `addMessage`: no-op without a current session; otherwise appends
to the current session's messages, bumps `updatedAt`, re-persists the
record and replaces the matching entry of the in-memory list. -/
def addMessage (now : Nat) (message : ChatMessage) (w : World) : World :=
  match w.st.currentSession with
  | none => w
  | some currentSession =>
    let updated : Session :=
      { currentSession with
        messages := currentSession.messages ++ [message], updatedAt := now }
    { w with
      db := saveSessionDb w.db updated,
      st := { w.st with
        currentSession := some updated,
        sessions := w.st.sessions.map fun s => if s.id = updated.id then updated else s } }

/-- Replaces the last element of a message list by the same message with
`fragment` concatenated onto its content (the embedding of the array slot
update in `updateLastMessage`). -/
def extendLast (fragment : String) : List ChatMessage → List ChatMessage
  | [] => []
  | [m] => [{ m with content := m.content ++ fragment }]
  | m :: m2 :: rest => m :: extendLast fragment (m2 :: rest)

/-- Embeds `updateLastMessage`: no-op without a current session or with an
empty message list; otherwise grows the last message's content, bumps
`updatedAt`, re-persists and updates the in-memory list entry. -/
def updateLastMessage (now : Nat) (content : String) (w : World) : World :=
  match w.st.currentSession with
  | none => w
  | some currentSession =>
    if currentSession.messages.length = 0 then w
    else
      let updated : Session :=
        { currentSession with
          messages := extendLast content currentSession.messages, updatedAt := now }
      { w with
        db := saveSessionDb w.db updated,
        st := { w.st with
          currentSession := some updated,
          sessions := w.st.sessions.map fun s => if s.id = updated.id then updated else s } }

/-- Embeds the rejected-call message text: the error payload's detail
field when present and non-empty (JavaScript truthiness of `detail`),
otherwise the fixed fallback text. -/
def errDetail (detail : Option String) : String :=
  match detail with
  | some d => if d = "" then "Failed to send message" else d
  | none => "Failed to send message"

/-- Embeds `sendMessage`. `uid`/`t1` are the generated id and clock for the
user message, `aid`/`t2` for the Request Mode assistant message, and
`result` is the outcome the REST call would have (resolve or reject).
The REST call and any WebSocket client frame are recorded in the logs. -/
def sendMessage (uid : String) (t1 : Nat) (aid : String) (t2 : Nat)
    (content : String) (result : ChatResult) (w : World) : World :=
  match w.st.currentSession with
  | none => w
  | some currentSession =>
    let selectedAgent := w.st.selectedAgent
    let userMessage : ChatMessage :=
      { id := uid, role := Role.user, content := content, timestamp := t1, agent := none }
    let w1 := addMessage t1 userMessage w
    let w2 := { w1 with st := { w1.st with isSending := true } }
    let w3 :=
      if w.st.connectionMode = ConnectionMode.websocket ∧ w.st.wsConnection.isSome then
        { w2 with wsSent := w2.wsSent ++ [{ message := content, agent := selectedAgent }] }
      else
        let w2' := { w2 with restCalls := w2.restCalls ++
          [{ message := content, session_id := currentSession.id, agent := selectedAgent }] }
        match result with
        | ChatResult.ok message agent =>
          addMessage t2
            { id := aid, role := Role.assistant, content := message,
              timestamp := t2, agent := some agent } w2'
        | ChatResult.err detail =>
          addMessage t2
            { id := aid, role := Role.assistant, content := "Error: " ++ errDetail detail,
              timestamp := t2, agent := none } w2'
    { w3 with st := { w3.st with isSending := false } }

/-- Embeds the `ws.onmessage` handler: a `chunk` frame grows the last
message, `complete` clears the sending flag, and the error branch keys on
the truthiness of the error payload — only a non-empty error string
appends a synthetic assistant error message and clears the sending flag;
a frame whose error string is empty (or absent, which the empty string
also stands for) falls through every branch and does nothing. -/
def handleFrame (mid : String) (now : Nat) (f : Frame) (w : World) : World :=
  match f with
  | Frame.chunk content => updateLastMessage now content w
  | Frame.complete => { w with st := { w.st with isSending := false } }
  | Frame.error msg =>
    if msg = "" then w
    else
      let w1 := addMessage now
        { id := mid, role := Role.assistant, content := "Error: " ++ msg,
          timestamp := now, agent := none } w
      { w1 with st := { w1.st with isSending := false } }

/-- Embeds `connectWebSocket`: any prior channel is closed first; without a
current session nothing further happens (the closed handle stays in the
field until its close event fires); otherwise a fresh open channel bound to
the current session's id replaces the handle. -/
def connectWebSocket (w : World) : World :=
  let w1 :=
    match w.st.wsConnection with
    | some ch => { w with st := { w.st with wsConnection := some { ch with closed := true } } }
    | none => w
  match w1.st.currentSession with
  | none => w1
  | some currentSession =>
    { w1 with st := { w1.st with
        wsConnection := some { sessionId := currentSession.id, closed := false } } }

/-- Embeds `disconnectWebSocket`: closes and drops the handle when one is
held, otherwise a no-op. -/
def disconnectWebSocket (w : World) : World :=
  match w.st.wsConnection with
  | some _ => { w with st := { w.st with wsConnection := none } }
  | none => w

/-- Embeds the `ws.onerror` handler: clears the sending flag. -/
def wsOnError (w : World) : World :=
  { w with st := { w.st with isSending := false } }

/-- Embeds the `ws.onclose` handler: drops the stored handle. -/
def wsOnClose (w : World) : World :=
  { w with st := { w.st with wsConnection := none } }

/-- Messages of the currently selected session (empty when none). -/
def curMessages (w : World) : List ChatMessage :=
  match w.st.currentSession with
  | some s => s.messages
  | none => []

/-- Total number of transport calls made so far (REST calls plus WebSocket
client frames). -/
def totalSent (w : World) : Nat :=
  w.restCalls.length + w.wsSent.length

/-- One message may grow into another by content concatenation only: every
field but the content is unchanged, and the content gains a suffix. -/
def msgGrow (m m' : ChatMessage) : Prop :=
  m'.id = m.id ∧ m'.role = m.role ∧ m'.timestamp = m.timestamp ∧
  m'.agent = m.agent ∧ ∃ ext, m'.content = m.content ++ ext

/-- The legal evolution of a message sequence: the new sequence keeps every
old element in place and unchanged, except that the final old element's
content may have grown by concatenation, and new elements may have been
appended after it. -/
def MsgExtend : List ChatMessage → List ChatMessage → Prop
  | [], _ => True
  | [_], [] => False
  | [m], m' :: _ => msgGrow m m'
  | _ :: _ :: _, [] => False
  | m :: m2 :: rest, m' :: rest' => m' = m ∧ MsgExtend (m2 :: rest) rest'

/-- One Session-Manager event of the kind quantified over by the
append-only property: a `sendMessage` call or an inbound-frame delivery. -/
inductive SMOp where
  | send (uid : String) (t1 : Nat) (aid : String) (t2 : Nat)
      (content : String) (result : ChatResult)
  | frame (mid : String) (now : Nat) (f : Frame)

/-- Applies one event to the world. -/
def applyOp (w : World) (op : SMOp) : World :=
  match op with
  | SMOp.send uid t1 aid t2 content result => sendMessage uid t1 aid t2 content result w
  | SMOp.frame mid now f => handleFrame mid now f w

/-- The initial store state. -/
def emptyState : SessionState :=
  { sessions := [], currentSession := none, agents := [], selectedAgent := "",
    isLoading := false, isSending := false, connectionMode := ConnectionMode.rest,
    wsConnection := none }

/-- A world with empty store and initial state. -/
def emptyWorld : World :=
  { db := [], st := emptyState, restCalls := [], wsSent := [] }

/-- A concrete session used in the scenarios. -/
def sessionA : Session :=
  { id := "sA", name := "Chat 1", agent := "agentX", messages := [],
    createdAt := 1, updatedAt := 1 }

/-- A second concrete session, distinct id from `sessionA`. -/
def sessionB : Session :=
  { id := "sB", name := "Chat 2", agent := "agentY", messages := [],
    createdAt := 1, updatedAt := 1 }

/-- Stream-Mode scenario world: `sessionA` selected, websocket mode, an
open channel bound to `sessionA`. -/
def streamWorld : World :=
  { db := [sessionA],
    st := { emptyState with
      sessions := [sessionA], currentSession := some sessionA,
      selectedAgent := "agentX", connectionMode := ConnectionMode.websocket,
      wsConnection := some { sessionId := "sA", closed := false } },
    restCalls := [], wsSent := [] }

/-- Stream-Mode world whose store also holds `sessionB`. -/
def twoSessionWorld : World :=
  { streamWorld with db := [sessionA, sessionB] }

/-- Request-Mode world with a send already pending (sending flag true). -/
def pendingWorld : World :=
  { streamWorld with
    st := { streamWorld.st with
      isSending := true, connectionMode := ConnectionMode.rest, wsConnection := none } }

/-- Websocket mode selected but no channel handle stored. -/
def wsNullWorld : World :=
  { streamWorld with st := { streamWorld.st with wsConnection := none } }

/-- World with an agent already selected, for the catalog-fetch scenario. -/
def agentPickedWorld : World :=
  { emptyWorld with st := { emptyState with selectedAgent := "a" } }

/-- A concrete catalog entry. -/
def agentB : AgentInfo :=
  { name := "b", description := "second agent", capabilities := [], status := "ready" }

/-- Scenario 2 run: user send of "hi" in Stream Mode, then frames
chunk("He"), chunk("llo"), complete. -/
def scenario2Run : World :=
  handleFrame "a1" 5 Frame.complete
    (handleFrame "a1" 4 (Frame.chunk "llo")
      (handleFrame "a1" 3 (Frame.chunk "He")
        (sendMessage "u1" 2 "a1" 2 "hi" (ChatResult.ok "" "") streamWorld)))

/-- A lone Stream-Mode send with no reply frames at all. -/
def loneStreamSend : World :=
  sendMessage "u1" 2 "a1" 2 "hi" (ChatResult.ok "" "") streamWorld

/-- Toggle to Request Mode right after a Stream-Mode send, channel open. -/
def toggledRun : World :=
  setConnectionMode ConnectionMode.rest loneStreamSend

/-- Session switch performed while the channel bound to `sessionA` is open. -/
def switchedRun : World :=
  selectSession "sB" twoSessionWorld

/-- A second send issued while the first one is still pending. -/
def doubleSendRun : World :=
  sendMessage "u2" 3 "a2" 4 "again" (ChatResult.ok "reply" "agentX") pendingWorld

/-- createSession called with the empty agent string on the empty world. -/
def emptyAgentRun : World :=
  createSession "s0" 7 "" emptyWorld

/-- A concrete user message already present in a session. -/
def msgU : ChatMessage :=
  { id := "m0", role := Role.user, content := "hi", timestamp := 1, agent := none }

/-- A session that already holds one message. -/
def sessionC : Session :=
  { id := "sC", name := "Chat 3", agent := "agentX", messages := [msgU],
    createdAt := 1, updatedAt := 1 }

/-- A world holding two sessions, the first one selected and non-empty. -/
def busyWorld : World :=
  { db := [sessionC, sessionB],
    st := { emptyState with
      sessions := [sessionC, sessionB], currentSession := some sessionC,
      selectedAgent := "agentX" },
    restCalls := [], wsSent := [] }

theorem msgGrow_refl (m : ChatMessage) : msgGrow m m :=
  ⟨rfl, rfl, rfl, rfl, "", by simp⟩

theorem msgGrow_trans {a b c : ChatMessage} (h1 : msgGrow a b) (h2 : msgGrow b c) :
    msgGrow a c := by
  obtain ⟨i1, r1, t1, g1, e1, hc1⟩ := h1
  obtain ⟨i2, r2, t2, g2, e2, hc2⟩ := h2
  exact ⟨i2.trans i1, r2.trans r1, t2.trans t1, g2.trans g1, e1 ++ e2, by
    rw [hc2, hc1, String.append_assoc]⟩

theorem msgExtend_refl : ∀ l, MsgExtend l l
  | [] => trivial
  | [m] => msgGrow_refl m
  | _ :: m2 :: rest => ⟨rfl, msgExtend_refl (m2 :: rest)⟩

theorem msgExtend_append : ∀ (l s : List ChatMessage), MsgExtend l (l ++ s)
  | [], _ => trivial
  | [m], s => by cases s <;> exact msgGrow_refl m
  | _ :: m2 :: rest, s => ⟨rfl, msgExtend_append (m2 :: rest) s⟩

theorem msgExtend_extendLast (frag : String) : ∀ l, MsgExtend l (extendLast frag l)
  | [] => trivial
  | [_] => ⟨rfl, rfl, rfl, rfl, frag, rfl⟩
  | _ :: m2 :: rest => ⟨rfl, msgExtend_extendLast frag (m2 :: rest)⟩

theorem msgExtend_cons_nil {m : ChatMessage} {rest : List ChatMessage}
    (h : MsgExtend (m :: rest) []) : False := by
  cases rest with
  | nil => exact h
  | cons a b => exact h

theorem msgExtend_trans (a : List ChatMessage) :
    ∀ b c, MsgExtend a b → MsgExtend b c → MsgExtend a c := by
  induction a with
  | nil => intro b c _ _; trivial
  | cons m arest ih =>
    intro b c h1 h2
    cases arest with
    | nil =>
      cases b with
      | nil => exact h1.elim
      | cons b1 brest =>
        cases brest with
        | nil =>
          cases c with
          | nil => exact h2.elim
          | cons c1 crest => exact msgGrow_trans h1 h2
        | cons b2 brest' =>
          cases c with
          | nil => exact (msgExtend_cons_nil h2).elim
          | cons c1 crest =>
            have h2' : c1 = b1 ∧ MsgExtend (b2 :: brest') crest := h2
            exact h2'.1 ▸ h1
    | cons a2 arest' =>
      cases b with
      | nil => exact (msgExtend_cons_nil h1).elim
      | cons b1 brest =>
        have h1' : b1 = m ∧ MsgExtend (a2 :: arest') brest := h1
        cases brest with
        | nil => exact (msgExtend_cons_nil h1'.2).elim
        | cons b2 brest' =>
          cases c with
          | nil => exact (msgExtend_cons_nil h2).elim
          | cons c1 crest =>
            have h2' : c1 = b1 ∧ MsgExtend (b2 :: brest') crest := h2
            exact ⟨h2'.1.trans h1'.1, ih (b2 :: brest') crest h1'.2 h2'.2⟩

theorem curMessages_eq {w : World} {cur : Session}
    (hcur : w.st.currentSession = some cur) : curMessages w = cur.messages := by
  simp [curMessages, hcur]

theorem addMessage_none {now : Nat} {msg : ChatMessage} {w : World}
    (hcur : w.st.currentSession = none) : addMessage now msg w = w := by
  simp [addMessage, hcur]

theorem curMessages_addMessage {now : Nat} {msg : ChatMessage} {w : World} {cur : Session}
    (hcur : w.st.currentSession = some cur) :
    curMessages (addMessage now msg w) = cur.messages ++ [msg] := by
  simp [addMessage, curMessages, hcur]

theorem updateLastMessage_none {now : Nat} {frag : String} {w : World}
    (hcur : w.st.currentSession = none) : updateLastMessage now frag w = w := by
  simp [updateLastMessage, hcur]

theorem updateLastMessage_nil {now : Nat} {frag : String} {w : World} {cur : Session}
    (hcur : w.st.currentSession = some cur) (hnil : cur.messages = []) :
    updateLastMessage now frag w = w := by
  simp [updateLastMessage, hcur, hnil]

theorem curMessages_updateLastMessage {now : Nat} {frag : String} {w : World} {cur : Session}
    (hcur : w.st.currentSession = some cur) (hne : cur.messages ≠ []) :
    curMessages (updateLastMessage now frag w) = extendLast frag cur.messages := by
  have hlen : ¬ cur.messages.length = 0 := by
    simpa [List.length_eq_zero] using hne
  simp [updateLastMessage, curMessages, hcur, hlen]

theorem extendLast_append (frag : String) (l : List ChatMessage) (m : ChatMessage) :
    extendLast frag (l ++ [m]) = l ++ [{ m with content := m.content ++ frag }] := by
  induction l with
  | nil => rfl
  | cons a l ih =>
    cases l with
    | nil => rfl
    | cons b l' => simpa [extendLast] using ih

theorem sendMessage_none {uid : String} {t1 : Nat} {aid : String} {t2 : Nat}
    {content : String} {result : ChatResult} {w : World}
    (hcur : w.st.currentSession = none) :
    sendMessage uid t1 aid t2 content result w = w := by
  simp [sendMessage, hcur]

theorem sendMessage_ws {uid : String} {t1 : Nat} {aid : String} {t2 : Nat}
    {content : String} {result : ChatResult} {w : World} {cur : Session}
    (hcur : w.st.currentSession = some cur)
    (hmode : w.st.connectionMode = ConnectionMode.websocket)
    (hws : w.st.wsConnection.isSome = true) :
    curMessages (sendMessage uid t1 aid t2 content result w) =
      cur.messages ++
        [{ id := uid, role := Role.user, content := content, timestamp := t1, agent := none }] ∧
    (sendMessage uid t1 aid t2 content result w).st.isSending = false ∧
    (sendMessage uid t1 aid t2 content result w).wsSent =
      w.wsSent ++ [{ message := content, agent := w.st.selectedAgent }] ∧
    (sendMessage uid t1 aid t2 content result w).restCalls = w.restCalls := by
  simp [sendMessage, addMessage, curMessages, hcur, hmode, hws]

theorem sendMessage_rest {uid : String} {t1 : Nat} {aid : String} {t2 : Nat}
    {content : String} {result : ChatResult} {w : World} {cur : Session}
    (hcur : w.st.currentSession = some cur)
    (hcond : ¬ (w.st.connectionMode = ConnectionMode.websocket ∧ w.st.wsConnection.isSome = true)) :
    curMessages (sendMessage uid t1 aid t2 content result w) =
      cur.messages ++
        [{ id := uid, role := Role.user, content := content, timestamp := t1, agent := none },
         (match result with
          | ChatResult.ok message agent =>
            { id := aid, role := Role.assistant, content := message,
              timestamp := t2, agent := some agent }
          | ChatResult.err detail =>
            { id := aid, role := Role.assistant,
              content := "Error: " ++ errDetail detail,
              timestamp := t2, agent := none })] ∧
    (sendMessage uid t1 aid t2 content result w).st.isSending = false ∧
    (sendMessage uid t1 aid t2 content result w).wsSent = w.wsSent ∧
    (sendMessage uid t1 aid t2 content result w).restCalls =
      w.restCalls ++ [{ message := content, session_id := cur.id, agent := w.st.selectedAgent }] := by
  cases result with
  | ok message agent => simp [sendMessage, addMessage, curMessages, hcur, hcond]
  | err detail => simp [sendMessage, addMessage, curMessages, hcur, hcond]

theorem sendMessage_ws_cur {uid : String} {t1 : Nat} {aid : String} {t2 : Nat}
    {content : String} {result : ChatResult} {w : World} {cur : Session}
    (hcur : w.st.currentSession = some cur)
    (hmode : w.st.connectionMode = ConnectionMode.websocket)
    (hws : w.st.wsConnection.isSome = true) :
    (sendMessage uid t1 aid t2 content result w).st.currentSession =
      some { cur with
        messages := cur.messages ++
          [{ id := uid, role := Role.user, content := content, timestamp := t1, agent := none }],
        updatedAt := t1 } := by
  simp [sendMessage, addMessage, hcur, hmode, hws]

theorem updateLastMessage_cur {now : Nat} {frag : String} {w : World} {cur : Session}
    (hcur : w.st.currentSession = some cur) (hne : cur.messages ≠ []) :
    (updateLastMessage now frag w).st.currentSession =
      some { cur with messages := extendLast frag cur.messages, updatedAt := now } := by
  have hlen : ¬ cur.messages.length = 0 := by
    simpa [List.length_eq_zero] using hne
  simp [updateLastMessage, hcur, hlen]

theorem updateLastMessage_isSending {now : Nat} {frag : String} {w : World} :
    (updateLastMessage now frag w).st.isSending = w.st.isSending := by
  cases hcur : w.st.currentSession with
  | none => simp [updateLastMessage, hcur]
  | some cur =>
    by_cases hlen : cur.messages.length = 0 <;> simp [updateLastMessage, hcur, hlen]

theorem mem_saveSessionDb (db : List Session) (s : Session) : s ∈ saveSessionDb db s := by
  induction db with
  | nil => simp [saveSessionDb]
  | cons t rest ih => by_cases h : t.id = s.id <;> simp [saveSessionDb, h, ih]

theorem curMessages_extends_send (uid : String) (t1 : Nat) (aid : String) (t2 : Nat)
    (content : String) (result : ChatResult) (w : World) :
    MsgExtend (curMessages w) (curMessages (sendMessage uid t1 aid t2 content result w)) := by
  cases hcur : w.st.currentSession with
  | none => rw [sendMessage_none hcur]; exact msgExtend_refl _
  | some cur =>
    by_cases hcond : w.st.connectionMode = ConnectionMode.websocket ∧ w.st.wsConnection.isSome = true
    · rw [(sendMessage_ws hcur hcond.1 hcond.2).1, curMessages_eq hcur]
      exact msgExtend_append _ _
    · rw [(sendMessage_rest hcur hcond).1, curMessages_eq hcur]
      exact msgExtend_append _ _

theorem curMessages_extends_frame (mid : String) (now : Nat) (f : Frame) (w : World) :
    MsgExtend (curMessages w) (curMessages (handleFrame mid now f w)) := by
  cases f with
  | chunk c =>
    show MsgExtend (curMessages w) (curMessages (updateLastMessage now c w))
    cases hcur : w.st.currentSession with
    | none => rw [updateLastMessage_none hcur]; exact msgExtend_refl _
    | some cur =>
      by_cases hnil : cur.messages = []
      · rw [updateLastMessage_nil hcur hnil]; exact msgExtend_refl _
      · rw [curMessages_updateLastMessage hcur hnil, curMessages_eq hcur]
        exact msgExtend_extendLast _ _
  | complete => exact msgExtend_refl _
  | error msg =>
    by_cases hmsg : msg = ""
    · have h : handleFrame mid now (Frame.error msg) w = w := by
        simp [handleFrame, hmsg]
      rw [h]; exact msgExtend_refl _
    · cases hcur : w.st.currentSession with
      | none =>
        have h : curMessages (handleFrame mid now (Frame.error msg) w) = curMessages w := by
          simp [handleFrame, addMessage, curMessages, hcur, hmsg]
        rw [h]; exact msgExtend_refl _
      | some cur =>
        have h : curMessages (handleFrame mid now (Frame.error msg) w) =
            cur.messages ++
              [{ id := mid, role := Role.assistant, content := "Error: " ++ msg,
                 timestamp := now, agent := none }] := by
          simp [handleFrame, addMessage, curMessages, hcur, hmsg]
        rw [h, curMessages_eq hcur]; exact msgExtend_append _ _

theorem applyOp_extends (w : World) (op : SMOp) :
    MsgExtend (curMessages w) (curMessages (applyOp w op)) := by
  cases op with
  | send uid t1 aid t2 content result =>
    exact curMessages_extends_send uid t1 aid t2 content result w
  | frame mid now f => exact curMessages_extends_frame mid now f w

/-- C8: after any sequence of sendMessage and frame-handling calls, the
current session's message sequence is an extension of its previous value:
entries are never reordered, deleted or replaced, except that the final
entry's content may grow by concatenation and new entries may be appended
after it. -/
theorem c8_append_only (ops : List SMOp) (w : World) :
    MsgExtend (curMessages w) (curMessages (List.foldl applyOp w ops)) := by
  induction ops generalizing w with
  | nil => exact msgExtend_refl _
  | cons op rest ih =>
    exact msgExtend_trans _ _ _ (applyOp_extends w op) (ih (applyOp w op))

/-- C7 counterexample: with agent "a" already selected, a successful
catalog fetch returning agentB overwrites the selection with "b", so a
previously selected agent is not left unchanged. -/
theorem c7_counterexample :
    agentPickedWorld.st.selectedAgent = "a" ∧
    (loadAgents (some [agentB]) agentPickedWorld).st.selectedAgent = "b" :=
  ⟨rfl, rfl⟩

/-- C7 amended: on a successful catalog fetch, loadAgents always overwrites
the selection with the first returned agent's name (the empty string when
the catalog is empty), regardless of any existing selection; on fetch
failure the agent list and the selection are left untouched. -/
theorem c7_loadAgents (w : World) (l : List AgentInfo) :
    (loadAgents (some l) w).st.agents = l ∧
    (loadAgents (some l) w).st.selectedAgent =
      (match l with | [] => "" | a :: _ => a.name) ∧
    loadAgents none w = w := by
  cases l <;> exact ⟨rfl, rfl, rfl⟩

/-- C6 counterexample: createSession called with the empty agent string is
not rejected and is not side-effect free — it persists and selects a
session whose agent field is the empty string. -/
theorem c6_counterexample :
    emptyAgentRun.st.currentSession =
      some { id := "s0", name := "Chat 7", agent := "", messages := [],
             createdAt := 7, updatedAt := 7 } ∧
    emptyAgentRun.db =
      [{ id := "s0", name := "Chat 7", agent := "", messages := [],
         createdAt := 7, updatedAt := 7 }] := by
  exact ⟨rfl, rfl⟩

/-- C6 amended: createSession performs no validation of the agent
identifier — for every agent string, the empty string included, it
constructs a Session with an empty message list and the current
timestamps, persists it, refreshes the in-memory list from the store, and
selects it; guarding against a missing agent is left to callers. -/
theorem c6_createSession (sid : String) (now : Nat) (agent : String) (w : World) :
    (createSession sid now agent w).st.currentSession =
      some { id := sid, name := "Chat " ++ toString now, agent := agent,
             messages := [], createdAt := now, updatedAt := now } ∧
    (createSession sid now agent w).st.sessions = (createSession sid now agent w).db ∧
    (createSession sid now agent w).db =
      saveSessionDb w.db
        { id := sid, name := "Chat " ++ toString now, agent := agent,
          messages := [], createdAt := now, updatedAt := now } ∧
    ∃ s, s ∈ (createSession sid now agent w).db ∧
      s.id = sid ∧ s.agent = agent ∧ s.messages = [] :=
  ⟨rfl, rfl, rfl, ⟨_, mem_saveSessionDb _ _, rfl, rfl, rfl⟩⟩

/-- C2 counterexample: a Stream Mode send with no matching reply does not
leave the sending flag true — sendMessage itself clears the flag at the
end of its body, so after the lone send the flag is already false even
though the frame went out. -/
theorem c2_counterexample :
    loneStreamSend.st.isSending = false ∧
    loneStreamSend.wsSent = [{ message := "hi", agent := "agentX" }] :=
  ⟨rfl, rfl⟩

/-- C2 amended: sendMessage unconditionally clears the sending flag at the
end of its own execution — in Request Mode that is when the call resolves
or rejects, but in Stream Mode the flag is cleared immediately after the
frame is sent, so a send with no matching reply leaves sending false, not
true; completion frames, error frames carrying a non-empty (truthy) error
string, and channel errors clear it too, while an error frame whose error
string is empty is ignored entirely and changes nothing. -/
theorem c2_sending_flag (uid : String) (t1 : Nat) (aid : String) (t2 : Nat)
    (content emsg : String) (result : ChatResult) (w : World) (cur : Session)
    (hcur : w.st.currentSession = some cur) (hemsg : emsg ≠ "") :
    (sendMessage uid t1 aid t2 content result w).st.isSending = false ∧
    (handleFrame aid t2 Frame.complete w).st.isSending = false ∧
    (handleFrame aid t2 (Frame.error emsg) w).st.isSending = false ∧
    handleFrame aid t2 (Frame.error "") w = w ∧
    (wsOnError w).st.isSending = false := by
  refine ⟨?_, rfl, ?_, ?_, rfl⟩
  · simp [sendMessage, hcur]
  · simp [handleFrame, hemsg]
  · simp [handleFrame]

/-- C2 amended witness at the concrete Stream-Mode world. -/
theorem c2_sending_flag_witness :
    (sendMessage "u1" 2 "a1" 2 "hi" (ChatResult.ok "" "") streamWorld).st.isSending = false ∧
    (handleFrame "a1" 2 Frame.complete streamWorld).st.isSending = false ∧
    (handleFrame "a1" 2 (Frame.error "boom") streamWorld).st.isSending = false ∧
    handleFrame "a1" 2 (Frame.error "") streamWorld = streamWorld ∧
    (wsOnError streamWorld).st.isSending = false :=
  c2_sending_flag "u1" 2 "a1" 2 "hi" "boom" (ChatResult.ok "" "") streamWorld sessionA rfl
    (by decide)

/-- C3 counterexample: toggling from Stream Mode to Request Mode while the
channel is open does not close the channel, and a chunk frame arriving
afterwards is still processed — it still grows the last message. -/
theorem c3_counterexample :
    toggledRun.st.connectionMode = ConnectionMode.rest ∧
    toggledRun.st.wsConnection = some { sessionId := "sA", closed := false } ∧
    curMessages (handleFrame "a1" 3 (Frame.chunk "!") toggledRun) =
      [{ id := "u1", role := Role.user, content := "hi!", timestamp := 2, agent := none }] := by
  refine ⟨rfl, rfl, ?_⟩
  decide

/-- C3 amended: setConnectionMode is a passive flag write — it records the
new mode and changes nothing else; in particular it neither closes nor
opens a channel, and inbound chunk frames are processed after the toggle
exactly as they would have been before it (the presentation layer performs
the actual teardown separately, via disconnectWebSocket). -/
theorem c3_setConnectionMode (mode : ConnectionMode) (w : World) :
    (setConnectionMode mode w).st.connectionMode = mode ∧
    (setConnectionMode mode w).st.wsConnection = w.st.wsConnection ∧
    (setConnectionMode mode w).st.currentSession = w.st.currentSession ∧
    (setConnectionMode mode w).st.sessions = w.st.sessions ∧
    (setConnectionMode mode w).st.isSending = w.st.isSending ∧
    (setConnectionMode mode w).db = w.db ∧
    ∀ mid t c, handleFrame mid t (Frame.chunk c) (setConnectionMode mode w) =
      setConnectionMode mode (handleFrame mid t (Frame.chunk c) w) := by
  refine ⟨rfl, rfl, rfl, rfl, rfl, rfl, ?_⟩
  intro mid t c
  show updateLastMessage t c (setConnectionMode mode w) =
    setConnectionMode mode (updateLastMessage t c w)
  cases hcur : w.st.currentSession with
  | none => simp [updateLastMessage, setConnectionMode, hcur]
  | some cur =>
    by_cases hlen : cur.messages.length = 0 <;>
      simp [updateLastMessage, setConnectionMode, hcur, hlen]

/-- C4 counterexample: with the channel open and bound to sessionA,
selectSession of sessionB switches the current session but leaves the
prior channel open and bound to "sA" — the open channel is no longer bound
to the currently selected session's id. -/
theorem c4_counterexample :
    switchedRun.st.currentSession = some sessionB ∧
    switchedRun.st.wsConnection = some { sessionId := "sA", closed := false } ∧
    sessionB.id ≠ "sA" := by
  refine ⟨by decide, rfl, by decide⟩

/-- C4 amended: the manager stores at most one channel handle (one
optional field), and connectWebSocket closes any prior channel and binds
the freshly opened channel to the currently selected session; but
switching the selected session performs no teardown — selectSession leaves
the stored handle untouched, so an open channel can stay bound to the
previously selected session until connectWebSocket or disconnectWebSocket
runs. -/
theorem c4_channel_binding (w : World) :
    (∀ cur, w.st.currentSession = some cur →
      (connectWebSocket w).st.wsConnection = some { sessionId := cur.id, closed := false } ∧
      (connectWebSocket w).st.currentSession = some cur) ∧
    (w.st.currentSession = none →
      ∀ ch, (connectWebSocket w).st.wsConnection = some ch → ch.closed = true) ∧
    (∀ id, (selectSession id w).st.wsConnection = w.st.wsConnection) := by
  refine ⟨?_, ?_, ?_⟩
  · intro cur hcur
    cases hws : w.st.wsConnection <;> simp [connectWebSocket, hws, hcur]
  · intro hcur ch hch
    cases hws : w.st.wsConnection with
    | none => simp [connectWebSocket, hws, hcur] at hch
    | some c =>
      have hx : (connectWebSocket w).st.wsConnection =
          some { sessionId := c.sessionId, closed := true } := by
        simp [connectWebSocket, hws, hcur]
      rw [hx] at hch
      injection hch with h
      rw [← h]
  · intro id
    cases hfind : getSessionDb w.db id <;> simp [selectSession, hfind]

/-- C4 amended witness at the concrete worlds. -/
theorem c4_channel_binding_witness :
    ((connectWebSocket streamWorld).st.wsConnection =
        some { sessionId := sessionA.id, closed := false } ∧
      (connectWebSocket streamWorld).st.currentSession = some sessionA) ∧
    (selectSession "sB" twoSessionWorld).st.wsConnection = twoSessionWorld.st.wsConnection :=
  ⟨(c4_channel_binding streamWorld).1 sessionA rfl,
   (c4_channel_binding twoSessionWorld).2.2 "sB"⟩

/-- C5 counterexample: with a send still pending (sending flag true), a
second sendMessage call is not rejected — the user message and the
assistant reply are appended and a REST transport call is made. -/
theorem c5_counterexample :
    pendingWorld.st.isSending = true ∧
    (curMessages doubleSendRun).length = (curMessages pendingWorld).length + 2 ∧
    doubleSendRun.restCalls.length = 1 := by
  refine ⟨rfl, by decide, by decide⟩

/-- C5 amended: the Session Manager has no outstanding-send guard —
sendMessage never consults the sending flag, so a second call issued while
a previous send is pending still appends the user message and still makes
a transport call; double sends are prevented only by the UI disabling its
input, outside the Session Manager. -/
theorem c5_no_send_guard (uid : String) (t1 : Nat) (aid : String) (t2 : Nat)
    (content : String) (result : ChatResult) (w : World) (cur : Session)
    (hcur : w.st.currentSession = some cur) (_hpend : w.st.isSending = true) :
    (curMessages (sendMessage uid t1 aid t2 content result w)).length >
      (curMessages w).length ∧
    totalSent (sendMessage uid t1 aid t2 content result w) = totalSent w + 1 := by
  by_cases hcond : w.st.connectionMode = ConnectionMode.websocket ∧ w.st.wsConnection.isSome = true
  · obtain ⟨hm, _, hwss, hrc⟩ :=
      @sendMessage_ws uid t1 aid t2 content result w cur hcur hcond.1 hcond.2
    refine ⟨?_, ?_⟩
    · rw [hm, curMessages_eq hcur]; simp
    · simp only [totalSent, hwss, hrc, List.length_append, List.length_cons, List.length_nil]
      omega
  · obtain ⟨hm, _, hwss, hrc⟩ := @sendMessage_rest uid t1 aid t2 content result w cur hcur hcond
    refine ⟨?_, ?_⟩
    · rw [hm, curMessages_eq hcur]; simp
    · simp only [totalSent, hwss, hrc, List.length_append, List.length_cons, List.length_nil]
      omega

/-- C5 amended witness: the concrete double send at the pending world. -/
theorem c5_no_send_guard_witness :
    (curMessages (sendMessage "u2" 3 "a2" 4 "again"
        (ChatResult.ok "reply" "agentX") pendingWorld)).length >
      (curMessages pendingWorld).length ∧
    totalSent (sendMessage "u2" 3 "a2" 4 "again"
        (ChatResult.ok "reply" "agentX") pendingWorld) = totalSent pendingWorld + 1 :=
  c5_no_send_guard "u2" 3 "a2" 4 "again" (ChatResult.ok "reply" "agentX")
    pendingWorld sessionA rfl rfl

/-- C9: when the connection mode is websocket but no channel handle is
stored, sendMessage falls through to the Request Mode single-call path:
exactly one REST call is made, no websocket frame is sent, and one
assistant message — the full reply on success, an error-prefixed message
on failure — is appended after the user message. -/
theorem c9_ws_null_fallback (uid : String) (t1 : Nat) (aid : String) (t2 : Nat)
    (content : String) (result : ChatResult) (w : World) (cur : Session)
    (hcur : w.st.currentSession = some cur)
    (_hmode : w.st.connectionMode = ConnectionMode.websocket)
    (hws : w.st.wsConnection = none) :
    (sendMessage uid t1 aid t2 content result w).restCalls =
      w.restCalls ++
        [{ message := content, session_id := cur.id, agent := w.st.selectedAgent }] ∧
    (sendMessage uid t1 aid t2 content result w).wsSent = w.wsSent ∧
    ∃ reply : ChatMessage, reply.role = Role.assistant ∧ reply.id = aid ∧
      curMessages (sendMessage uid t1 aid t2 content result w) =
        curMessages w ++
          [{ id := uid, role := Role.user, content := content, timestamp := t1, agent := none },
           reply] ∧
      (∀ m a, result = ChatResult.ok m a → reply.content = m ∧ reply.agent = some a) ∧
      (∀ d, result = ChatResult.err d → ∃ e, reply.content = "Error: " ++ e) := by
  have hcond : ¬ (w.st.connectionMode = ConnectionMode.websocket ∧
      w.st.wsConnection.isSome = true) := by
    simp [hws]
  obtain ⟨hm, _, hwss, hrc⟩ := @sendMessage_rest uid t1 aid t2 content result w cur hcur hcond
  refine ⟨hrc, hwss, ?_⟩
  cases result with
  | ok m a =>
    refine ⟨{ id := aid, role := Role.assistant, content := m, timestamp := t2,
              agent := some a }, rfl, rfl, ?_, ?_, ?_⟩
    · rw [hm, curMessages_eq hcur]
    · intro m' a' h; cases h; exact ⟨rfl, rfl⟩
    · intro d h; cases h
  | err d =>
    refine ⟨{ id := aid, role := Role.assistant,
              content := "Error: " ++ errDetail d,
              timestamp := t2, agent := none }, rfl, rfl, ?_, ?_, ?_⟩
    · rw [hm, curMessages_eq hcur]
    · intro m' a' h; cases h
    · intro d' h; exact ⟨_, rfl⟩

/-- C9 witness: websocket mode with a null handle at the concrete world. -/
theorem c9_ws_null_fallback_witness :
    (sendMessage "u1" 2 "a1" 3 "hi" (ChatResult.ok "hello" "agentX") wsNullWorld).restCalls =
      wsNullWorld.restCalls ++
        [{ message := "hi", session_id := sessionA.id, agent := wsNullWorld.st.selectedAgent }] ∧
    (sendMessage "u1" 2 "a1" 3 "hi" (ChatResult.ok "hello" "agentX") wsNullWorld).wsSent =
      wsNullWorld.wsSent ∧
    ∃ reply : ChatMessage, reply.role = Role.assistant ∧ reply.id = "a1" ∧
      curMessages (sendMessage "u1" 2 "a1" 3 "hi" (ChatResult.ok "hello" "agentX") wsNullWorld) =
        curMessages wsNullWorld ++
          [{ id := "u1", role := Role.user, content := "hi", timestamp := 2, agent := none },
           reply] ∧
      (∀ m a, ChatResult.ok "hello" "agentX" = ChatResult.ok m a →
        reply.content = m ∧ reply.agent = some a) ∧
      (∀ d, ChatResult.ok "hello" "agentX" = ChatResult.err d →
        ∃ e, reply.content = "Error: " ++ e) :=
  c9_ws_null_fallback "u1" 2 "a1" 3 "hi" (ChatResult.ok "hello" "agentX")
    wsNullWorld sessionA rfl rfl rfl

/-- C1 counterexample: in the Scenario-2 run the session does not end with
an assistant message whose content is "Hello" — no assistant message
exists at all: the chunks were appended onto the user message, which ends
as "hiHello" (the sending flag is indeed false afterwards). -/
theorem c1_counterexample :
    curMessages scenario2Run =
      [{ id := "u1", role := Role.user, content := "hiHello", timestamp := 2, agent := none }] ∧
    (∀ m ∈ curMessages scenario2Run, m.role = Role.user) ∧
    scenario2Run.st.isSending = false := by
  refine ⟨by decide, by decide, rfl⟩

/-- C1 amended: in Stream Mode, after a user send of "hi" followed by
inbound frames chunk("He"), chunk("llo"), complete, no assistant message
is created — the fragments are concatenated onto the trailing user
message, so the session ends with the user message "hiHello" as its last
entry, and the sending flag is false afterwards. -/
theorem c1_stream_turn (w : World) (cur : Session) (uid aid : String)
    (t1 t2 t3 t4 t5 : Nat) (r : ChatResult)
    (hcur : w.st.currentSession = some cur)
    (hmode : w.st.connectionMode = ConnectionMode.websocket)
    (hws : w.st.wsConnection.isSome = true) :
    curMessages (handleFrame aid t5 Frame.complete
      (handleFrame aid t4 (Frame.chunk "llo")
        (handleFrame aid t3 (Frame.chunk "He")
          (sendMessage uid t1 aid t2 "hi" r w)))) =
      cur.messages ++
        [{ id := uid, role := Role.user, content := "hiHello", timestamp := t1, agent := none }] ∧
    (handleFrame aid t5 Frame.complete
      (handleFrame aid t4 (Frame.chunk "llo")
        (handleFrame aid t3 (Frame.chunk "He")
          (sendMessage uid t1 aid t2 "hi" r w)))).st.isSending = false := by
  have hstr1 : ("hi" ++ "He" : String) = "hiHe" := rfl
  have hstr2 : ("hiHe" ++ "llo" : String) = "hiHello" := rfl
  refine ⟨?_, ?_⟩ <;>
    simp [handleFrame, sendMessage, addMessage, updateLastMessage, curMessages,
          hcur, hmode, hws, extendLast_append, hstr1, hstr2]

/-- C1 amended witness at the concrete Stream-Mode world. -/
theorem c1_stream_turn_witness :
    curMessages (handleFrame "a1" 5 Frame.complete
      (handleFrame "a1" 4 (Frame.chunk "llo")
        (handleFrame "a1" 3 (Frame.chunk "He")
          (sendMessage "u1" 2 "a1" 2 "hi" (ChatResult.ok "" "") streamWorld)))) =
      sessionA.messages ++
        [{ id := "u1", role := Role.user, content := "hiHello", timestamp := 2, agent := none }] ∧
    (handleFrame "a1" 5 Frame.complete
      (handleFrame "a1" 4 (Frame.chunk "llo")
        (handleFrame "a1" 3 (Frame.chunk "He")
          (sendMessage "u1" 2 "a1" 2 "hi" (ChatResult.ok "" "") streamWorld)))).st.isSending = false :=
  c1_stream_turn streamWorld sessionA "u1" "a1" 2 2 3 4 5 (ChatResult.ok "" "") rfl rfl rfl

/-- C10: addMessage (with a session selected) and updateLastMessage (with
a session selected and a non-empty message list) change only the current
session's message list and its updatedAt timestamp — its id, name, agent
and createdAt are untouched — and every in-memory session with a
different id is unchanged, in place. -/
theorem c10_localized_mutation (now : Nat) (msg : ChatMessage) (frag : String)
    (w : World) (cur : Session) (hcur : w.st.currentSession = some cur) :
    ((addMessage now msg w).st.currentSession =
        some { cur with messages := cur.messages ++ [msg], updatedAt := now } ∧
      (addMessage now msg w).st.sessions.length = w.st.sessions.length ∧
      (∀ i : Nat, ∀ s : Session, w.st.sessions[i]? = some s → s.id ≠ cur.id →
        (addMessage now msg w).st.sessions[i]? = some s)) ∧
    (cur.messages ≠ [] →
      (updateLastMessage now frag w).st.currentSession =
        some { cur with messages := extendLast frag cur.messages, updatedAt := now } ∧
      (updateLastMessage now frag w).st.sessions.length = w.st.sessions.length ∧
      (∀ i : Nat, ∀ s : Session, w.st.sessions[i]? = some s → s.id ≠ cur.id →
        (updateLastMessage now frag w).st.sessions[i]? = some s)) := by
  constructor
  · refine ⟨by simp [addMessage, hcur], by simp [addMessage, hcur], ?_⟩
    intro i s hs hneq
    have hmap : (addMessage now msg w).st.sessions =
        w.st.sessions.map (fun t => if t.id = cur.id then
          { cur with messages := cur.messages ++ [msg], updatedAt := now } else t) := by
      simp [addMessage, hcur]
    rw [hmap, List.getElem?_map, hs]
    simp [hneq]
  · intro hne
    have hlen : ¬ cur.messages.length = 0 := by
      simpa [List.length_eq_zero] using hne
    refine ⟨by simp [updateLastMessage, hcur, hlen], by simp [updateLastMessage, hcur, hlen], ?_⟩
    intro i s hs hneq
    have hmap : (updateLastMessage now frag w).st.sessions =
        w.st.sessions.map (fun t => if t.id = cur.id then
          { cur with messages := extendLast frag cur.messages, updatedAt := now } else t) := by
      simp [updateLastMessage, hcur, hlen]
    rw [hmap, List.getElem?_map, hs]
    simp [hneq]

/-- C10 witness at a concrete two-session world with a non-empty current
session. -/
theorem c10_localized_mutation_witness :
    (addMessage 9 msgU busyWorld).st.currentSession =
      some { sessionC with messages := sessionC.messages ++ [msgU], updatedAt := 9 } ∧
    (updateLastMessage 9 "!" busyWorld).st.currentSession =
      some { sessionC with messages := extendLast "!" sessionC.messages, updatedAt := 9 } ∧
    (updateLastMessage 9 "!" busyWorld).st.sessions[1]? = some sessionB :=
  ⟨(c10_localized_mutation 9 msgU "!" busyWorld sessionC rfl).1.1,
   ((c10_localized_mutation 9 msgU "!" busyWorld sessionC rfl).2 (by decide)).1,
   ((c10_localized_mutation 9 msgU "!" busyWorld sessionC rfl).2 (by decide)).2.2
     1 sessionB rfl (by decide)⟩

end SessionStore
